import Mathlib

set_option maxHeartbeats 1000000

/-! Shallow embedding of the transaction-analysis pipeline of
`src/app.py` (class `AdvancedBankAnalysisDashboard`): preprocessing,
metric computation, anomaly detection and recommendation generation.
Amounts are integers (exact for the integral data of the
specification's examples); the statistics over them are exact
rationals, and the IEEE-754 fault values (inf, -inf, NaN) produced by
the degenerate divisions in the source are modelled explicitly by the
`FloatVal` and `Vol` types, with comparison operators matching the
NaN-propagating float comparisons. -/

/-- Timestamp of a transaction (the `date` column), to minute precision. -/
structure DT where
  year : Nat
  month : Nat
  day : Nat
  hour : Nat
  minute : Nat
deriving DecidableEq

/-- One row of the bank-statement table.  The derived columns `month`,
`day_of_week` and `quarter` are `none` on raw input and are filled in by
preprocessing, mirroring the pandas DataFrame acquiring new columns; a
missing counterparty name is `none`. -/
structure Txn where
  date : DT
  name : Option String
  amount : ℤ
  DrCr : String
  month : Option (Nat × Nat) := none
  day_of_week : Option String := none
  quarter : Option (Nat × Nat) := none
deriving DecidableEq

/-- Day-of-week name of a date (pandas `dt.day_name()`), computed by
Zeller's congruence for the Gregorian calendar. -/
def dayName (d : DT) : String :=
  let y := if d.month < 3 then d.year - 1 else d.year
  let m := if d.month < 3 then d.month + 12 else d.month
  let k := y % 100
  let j := y / 100
  let h := (d.day + (13 * (m + 1)) / 5 + k + k / 4 + j / 4 + 5 * j) % 7
  (["Saturday", "Sunday", "Monday", "Tuesday", "Wednesday", "Thursday",
    "Friday"]).getD h ""

/-- Monthly bucket key: pandas `dt.to_period('M')` is a year-month
period, so the key carries the year as well as the month. -/
def monthKey (d : DT) : Nat × Nat := (d.year, d.month)

/-- Quarterly bucket key: pandas `dt.to_period('Q')` is a year-quarter
period. -/
def quarterKey (d : DT) : Nat × Nat := (d.year, (d.month + 2) / 3)

/-- Column assignments of `_preprocess_data` applied to one row:
`pd.to_datetime` (identity on an already-parsed timestamp),
`fillna('Unknown')` on `name`, and the three derived calendar columns. -/
def enrich (r : Txn) : Txn :=
  { r with
    name := some (r.name.getD "Unknown"),
    month := some (monthKey r.date),
    day_of_week := some (dayName r.date),
    quarter := some (quarterKey r.date) }

/-- Worker for duplicate removal: drops any element already seen,
keeping first occurrences in order. -/
def dedupFirstAux {α : Type} [DecidableEq α] (seen : List α) : List α → List α
  | [] => []
  | a :: l =>
    if a ∈ seen then dedupFirstAux seen l
    else a :: dedupFirstAux (a :: seen) l

/-- Duplicate removal keeping the first occurrence, as pandas
`DataFrame.drop_duplicates` does over full-row equality. -/
def dedupFirst {α : Type} [DecidableEq α] (l : List α) : List α :=
  dedupFirstAux [] l

/-- The record set returned by `_preprocess_data`: every row enriched,
then exact duplicates removed. -/
def preprocess_data (raw : List Txn) : List Txn :=
  dedupFirst (raw.map enrich)

/-- State-passing embedding of `_preprocess_data`'s effect: the column
assignments mutate the caller's DataFrame in place, so after the call the
input object holds the enriched rows (not deduplicated, since
`drop_duplicates` returns a fresh object); the second component is the
returned record set. -/
def preprocessEffect (raw : List Txn) : List Txn × List Txn :=
  (raw.map enrich, dedupFirst (raw.map enrich))

/-- The `self.credits` subset: rows whose `DrCr` column equals `'Cr'`. -/
def creditsOf (data : List Txn) : List Txn :=
  data.filter fun r => decide (r.DrCr = "Cr")

/-- The `self.debits` subset: rows whose `DrCr` column equals `'Db'`. -/
def debitsOf (data : List Txn) : List Txn :=
  data.filter fun r => decide (r.DrCr = "Db")

/-- The `amount` column of a record set. -/
def amounts_of (data : List Txn) : List ℤ :=
  data.map (fun r => r.amount)

/-- The `amount` column viewed as the float series handed to the
statistical computations; exact for integer amounts. -/
def amountsQ (data : List Txn) : List ℚ :=
  data.map (fun r => (r.amount : ℚ))

/-- Value of a float expression: an exact rational, a signed infinity,
or NaN. -/
inductive FloatVal where
  | num (q : ℚ)
  | posInf
  | negInf
  | nan
deriving DecidableEq

/-- IEEE-754 float division on exact rational operands: division by
zero yields a signed infinity, and 0/0 yields NaN, as numpy/pandas true
division does. -/
def fdiv (a b : ℚ) : FloatVal :=
  if b = 0 then
    if a = 0 then FloatVal.nan else if 0 < a then FloatVal.posInf else FloatVal.negInf
  else FloatVal.num (a / b)

/-- IEEE-754 float division of two integer sums (numpy true division
casts them to float): division by zero yields a signed infinity or NaN. -/
def fdivInt (a b : ℤ) : FloatVal :=
  if b = 0 then
    if a = 0 then FloatVal.nan else if 0 < a then FloatVal.posInf else FloatVal.negInf
  else FloatVal.num ((a : ℚ) / (b : ℚ))

/-- Multiplication of a float value by a positive rational constant
(the `* 100` scalings in the source). -/
def fmulPos (x : FloatVal) (c : ℚ) : FloatVal :=
  match x with
  | FloatVal.num q => FloatVal.num (q * c)
  | FloatVal.posInf => FloatVal.posInf
  | FloatVal.negInf => FloatVal.negInf
  | FloatVal.nan => FloatVal.nan

/-- Float comparison `x < c` for a rational threshold: comparisons
against NaN are false. -/
def fltQ (x : FloatVal) (c : ℚ) : Bool :=
  match x with
  | FloatVal.num q => decide (q < c)
  | FloatVal.posInf => false
  | FloatVal.negInf => true
  | FloatVal.nan => false

/-- Float comparison `x > c` for a rational threshold: comparisons
against NaN are false. -/
def fgtQ (x : FloatVal) (c : ℚ) : Bool :=
  match x with
  | FloatVal.num q => decide (c < q)
  | FloatVal.posInf => true
  | FloatVal.negInf => false
  | FloatVal.nan => false

/-- Mean of a rational series (`Series.mean`); only consulted through
guarded contexts, the empty case being reported as NaN there. -/
def meanQ (l : List ℚ) : ℚ :=
  l.sum / l.length

/-- Population variance (`ddof=0`), the square of the standard deviation
used by `scipy.stats.zscore`. -/
def popVar (l : List ℚ) : ℚ :=
  ((l.map fun x => (x - meanQ l) ^ 2).sum) / l.length

/-- Sample variance (`ddof=1`), the square of pandas `Series.std`. -/
def sampleVar (l : List ℚ) : ℚ :=
  ((l.map fun x => (x - meanQ l) ^ 2).sum) / ((l.length : ℚ) - 1)

/-- Mean of a series as a float value: the mean of an empty series is
NaN (`Series.mean` on no rows). -/
def meanF (l : List ℚ) : FloatVal :=
  if l.length = 0 then FloatVal.nan else FloatVal.num (meanQ l)

/-- Value of the cash-flow-volatility expression
`std(flows)/mean(flows)*100`.  The standard deviation is an irrational
square root, so the finite case is represented exactly by the pair
(sample variance, mean): `val v m` denotes the real number
100 * sqrt v / m.  NaN arises from an empty series (mean NaN), a
single month (sample std NaN over ddof=1), or 0/0. -/
inductive Vol where
  | nan
  | val (v m : ℚ)
deriving DecidableEq

/-- The coefficient-of-variation computation of
`calculate_advanced_metrics` on the per-month flow sums. -/
def cashFlowVolatilityOf (flows : List ℚ) : Vol :=
  if flows.length < 2 then Vol.nan
  else if sampleVar flows = 0 ∧ meanQ flows = 0 then Vol.nan
  else Vol.val (sampleVar flows) (meanQ flows)

/-- The float comparison `cash_flow_volatility > 50` of the
recommendation rules, evaluated exactly on the `Vol` representation:
for a positive mean m, 100*sqrt(v)/m > 50 iff m^2 < 4*v; for a zero
mean and positive variance the value is +inf; NaN and
nonpositive-mean values fail the comparison. -/
def volGt50 : Vol → Bool
  | Vol.nan => false
  | Vol.val v m =>
    if m = 0 then decide (0 < v) else decide (0 < m ∧ m ^ 2 < 4 * v)

/-- Per-group sums of the `amount` column for a grouping key
(`groupby(key)['amount'].sum()`), group keys in first-occurrence order. -/
def groupSumsBy {κ : Type} [DecidableEq κ] (key : Txn → κ) (l : List Txn) : List ℤ :=
  (dedupFirst (l.map key)).map fun k =>
    ((l.filter fun r => decide (key r = k)).map fun r => r.amount).sum

/-- The metrics bundle returned by `calculate_advanced_metrics`. -/
structure Metrics where
  total_income : ℤ
  total_expenses : ℤ
  savings_rate : FloatVal
  avg_monthly_income : FloatVal
  avg_monthly_expenses : FloatVal
  cash_flow_volatility : Vol
deriving DecidableEq

/-- Sum of the amounts of the Credit rows (`self.credits['amount'].sum()`). -/
def total_income_of (data : List Txn) : ℤ :=
  (amounts_of (creditsOf data)).sum

/-- Sum of the amounts of the Debit rows (`self.debits['amount'].sum()`). -/
def total_expenses_of (data : List Txn) : ℤ :=
  (amounts_of (debitsOf data)).sum

/-- Embedding of `calculate_advanced_metrics` over the preprocessed
record set. -/
def calculate_advanced_metrics (data : List Txn) : Metrics :=
  let total_income := total_income_of data
  let total_expenses := total_expenses_of data
  let savings_rate := fmulPos (fdivInt (total_income - total_expenses) total_income) 100
  let monthly_cash_flow := groupSumsBy (fun r => monthKey r.date) data
  { total_income := total_income
    total_expenses := total_expenses
    savings_rate := savings_rate
    avg_monthly_income :=
      meanF ((groupSumsBy (fun r => r.month) (creditsOf data)).map fun z => (z : ℚ))
    avg_monthly_expenses :=
      meanF ((groupSumsBy (fun r => r.month) (debitsOf data)).map fun z => (z : ℚ))
    cash_flow_volatility :=
      cashFlowVolatilityOf (monthly_cash_flow.map fun z => (z : ℚ)) }

/-- Embedding of `_detect_zscore_anomalies`: `scipy.stats.zscore` forms
(x - mean)/std with the population std; the flag |z| > 3 is evaluated as
z^2 > 9 on the exact square (x - mean)^2 / variance, which carries the
same NaN behaviour (a zero std makes every z-score NaN, and a NaN
comparison is false). -/
def detect_zscore_anomalies (data : List Txn) : List Txn :=
  data.filter fun r =>
    fgtQ (fdiv (((r.amount : ℚ) - meanQ (amountsQ data)) ^ 2)
      (popVar (amountsQ data))) 9

/-- Insertion of a value into a sorted rational list. -/
def insertSorted (x : ℚ) : List ℚ → List ℚ
  | [] => [x]
  | y :: l => if x ≤ y then x :: y :: l else y :: insertSorted x l

/-- Insertion sort of a rational list (ascending). -/
def sortQ : List ℚ → List ℚ
  | [] => []
  | x :: l => insertSorted x (sortQ l)

/-- Linear-interpolation quantile of a series (`Series.quantile`'s
default method); `none` models the NaN quantile of an empty series. -/
def quantileQ (l : List ℚ) (p : ℚ) : Option ℚ :=
  let sorted := sortQ l
  let n := sorted.length
  if n = 0 then none
  else
    let h : ℚ := p * ((n : ℚ) - 1)
    let i := (⌊h⌋).toNat
    let lo := sorted.getD i 0
    let hi := sorted.getD (min (i + 1) (n - 1)) 0
    some (lo + (h - (⌊h⌋ : ℚ)) * (hi - lo))

/-- Embedding of `_detect_iqr_anomalies`; on an empty series both
quantiles are NaN, every fence comparison is false, and no row is
flagged. -/
def detect_iqr_anomalies (data : List Txn) : List Txn :=
  match quantileQ (amountsQ data) (1/4), quantileQ (amountsQ data) (3/4) with
  | some q1, some q3 =>
    let iqr := q3 - q1
    data.filter fun r =>
      decide ((r.amount : ℚ) < q1 - 3/2 * iqr ∨ q3 + 3/2 * iqr < (r.amount : ℚ))
  | _, _ => []

/-- The two time-pattern anomaly views of `_detect_time_based_anomalies`. -/
structure TimeAnoms where
  late_night_transactions : List Txn
  weekend_transactions : List Txn
deriving DecidableEq

/-- Embedding of `_detect_time_based_anomalies`. -/
def detect_time_based_anomalies (data : List Txn) : TimeAnoms :=
  { late_night_transactions :=
      data.filter fun r => decide (r.date.hour < 6 ∨ 22 < r.date.hour)
    weekend_transactions :=
      data.filter fun r => decide (dayName r.date = "Saturday" ∨ dayName r.date = "Sunday") }

/-- The anomaly bundle returned by `detect_anomalies_advanced`. -/
structure Anomalies where
  z_score_anomalies : List Txn
  iqr_anomalies : List Txn
  time_anomalies : TimeAnoms
deriving DecidableEq

/-- Embedding of `detect_anomalies_advanced`. -/
def detect_anomalies_advanced (data : List Txn) : Anomalies :=
  { z_score_anomalies := detect_zscore_anomalies data
    iqr_anomalies := detect_iqr_anomalies data
    time_anomalies := detect_time_based_anomalies data }

/-- Text of the critical-overspending recommendation. -/
def criticalMsg : String :=
  "Critical: Your expenses exceed income. Urgent need to reduce spending."

/-- Text of the low-savings-rate recommendation. -/
def lowSavingsMsg : String :=
  "Low savings rate. Consider optimizing expenses."

/-- Text of the cash-flow-volatility recommendation. -/
def volatilityMsg : String :=
  "High cash flow variability. Consider building an emergency fund."

/-- Text of the z-score-anomaly recommendation, carrying the count. -/
def zscoreMsg (n : Nat) : String :=
  "Investigate " ++ toString n ++ " statistically unusual transactions."

/-- Text of the late-night recommendation, carrying the count. -/
def lateNightMsg (n : Nat) : String :=
  toString n ++ " late-night transactions detected. Potential security concern."

/-- Text of the weekend recommendation, carrying the count. -/
def weekendMsg (n : Nat) : String :=
  toString n ++ " weekend transactions found. Review unusual spending patterns."

/-- Embedding of `generate_advanced_recommendations`, mirroring the
sequential appends of the source; `iqr_count` is computed and, as in the
source, never used. -/
def generate_advanced_recommendations (m : Metrics) (a : Anomalies) : List String :=
  let recommendations : List String := []
  let recommendations :=
    if fltQ m.savings_rate 0 then recommendations ++ [criticalMsg]
    else if fltQ m.savings_rate 10 then recommendations ++ [lowSavingsMsg]
    else recommendations
  let recommendations :=
    if volGt50 m.cash_flow_volatility then recommendations ++ [volatilityMsg]
    else recommendations
  let z_score_count := a.z_score_anomalies.length
  let iqr_count := a.iqr_anomalies.length
  let recommendations :=
    if 0 < z_score_count then recommendations ++ [zscoreMsg z_score_count]
    else recommendations
  let late_night_count := a.time_anomalies.late_night_transactions.length
  let weekend_count := a.time_anomalies.weekend_transactions.length
  let recommendations :=
    if 0 < late_night_count then recommendations ++ [lateNightMsg late_night_count]
    else recommendations
  let recommendations :=
    if 0 < weekend_count then recommendations ++ [weekendMsg weekend_count]
    else recommendations
  recommendations

/-- The analysis pipeline of `render_advanced_dashboard`: preprocess,
compute metrics, detect anomalies, generate recommendations — metrics
are passed to the recommendation rules with no guard in between. -/
def render_pipeline (raw : List Txn) : Metrics × Anomalies × List String :=
  let data := preprocess_data raw
  let metrics := calculate_advanced_metrics data
  let anomalies := detect_anomalies_advanced data
  (metrics, anomalies, generate_advanced_recommendations metrics anomalies)

/-- Savings-rate segment of the recommendation list (first if/elif of
the source): at most one of the two savings messages. -/
def savings_segment (m : Metrics) : List String :=
  if fltQ m.savings_rate 0 then [criticalMsg]
  else if fltQ m.savings_rate 10 then [lowSavingsMsg]
  else []

/-- Volatility segment of the recommendation list. -/
def volatility_segment (m : Metrics) : List String :=
  if volGt50 m.cash_flow_volatility then [volatilityMsg] else []

/-- Z-score-count segment of the recommendation list. -/
def zscore_segment (a : Anomalies) : List String :=
  if 0 < a.z_score_anomalies.length then [zscoreMsg a.z_score_anomalies.length]
  else []

/-- Late-night-count segment of the recommendation list. -/
def late_segment (a : Anomalies) : List String :=
  if 0 < a.time_anomalies.late_night_transactions.length then
    [lateNightMsg a.time_anomalies.late_night_transactions.length]
  else []

/-- Weekend-count segment of the recommendation list. -/
def weekend_segment (a : Anomalies) : List String :=
  if 0 < a.time_anomalies.weekend_transactions.length then
    [weekendMsg a.time_anomalies.weekend_transactions.length]
  else []

/-- The three-record example of the specification: Credit 100 on
2024-01-03 14:00, Debit 5000 on 2024-01-10 23:30, Debit 90 on
2024-01-15 10:00. -/
def exampleRaw : List Txn :=
  [ { date := ⟨2024, 1, 3, 14, 0⟩, name := some "A", amount := 100, DrCr := "Cr" },
    { date := ⟨2024, 1, 10, 23, 30⟩, name := some "B", amount := 5000, DrCr := "Db" },
    { date := ⟨2024, 1, 15, 10, 0⟩, name := some "C", amount := 90, DrCr := "Db" } ]

/-- A record set with no Credit row: one Debit of 5090 on a Monday
morning, so the only recommendation trigger available is the
savings-rate rule. -/
def noIncomeRaw : List Txn :=
  [ { date := ⟨2024, 1, 15, 10, 0⟩, name := some "X", amount := 5090, DrCr := "Db" } ]

/-- Two records in the same-named calendar month of different years:
January 2023 and January 2024. -/
def janTwoYears : List Txn :=
  [ { date := ⟨2023, 1, 5, 12, 0⟩, name := some "A", amount := 100, DrCr := "Db" },
    { date := ⟨2024, 1, 5, 12, 0⟩, name := some "B", amount := 200, DrCr := "Db" } ]

/-- A raw record whose derived columns are still unset, witnessing the
caller-visible mutation performed by preprocessing. -/
def rawRec : Txn :=
  { date := ⟨2024, 3, 4, 9, 0⟩, name := none, amount := 10, DrCr := "Cr" }

/-- A record whose direction is neither `'Cr'` nor `'Db'`. -/
def transferRec : Txn :=
  { date := ⟨2024, 1, 5, 12, 0⟩, name := some "T", amount := 7, DrCr := "Tr" }

/-- Membership in the worker: an element survives exactly when it is
in the list and was not already seen. -/
theorem mem_dedupFirstAux {α : Type} [DecidableEq α] (l : List α) :
    ∀ (seen : List α) (x : α),
      x ∈ dedupFirstAux seen l ↔ x ∈ l ∧ x ∉ seen := by
  induction l with
  | nil => intro seen x; simp [dedupFirstAux]
  | cons a l ih =>
    intro seen x
    by_cases ha : a ∈ seen
    · rw [dedupFirstAux, if_pos ha, ih]
      constructor
      · rintro ⟨hx, hs⟩
        exact ⟨List.mem_cons_of_mem a hx, hs⟩
      · rintro ⟨hx, hs⟩
        rcases List.mem_cons.mp hx with rfl | h
        · exact absurd ha hs
        · exact ⟨h, hs⟩
    · rw [dedupFirstAux, if_neg ha]
      simp only [List.mem_cons, ih]
      constructor
      · rintro (rfl | ⟨hx, hs⟩)
        · exact ⟨Or.inl rfl, ha⟩
        · exact ⟨Or.inr hx, fun hxs => hs (Or.inr hxs)⟩
      · rintro ⟨rfl | hx, hs⟩
        · exact Or.inl rfl
        · by_cases hxa : x = a
          · exact Or.inl hxa
          · refine Or.inr ⟨hx, fun hxs => ?_⟩
            rcases hxs with h | h
            · exact hxa h
            · exact hs h

/-- Membership is preserved by duplicate removal. -/
theorem mem_dedupFirst {α : Type} [DecidableEq α] (l : List α) (x : α) :
    x ∈ dedupFirst l ↔ x ∈ l := by
  rw [dedupFirst, mem_dedupFirstAux]
  simp

/-- The worker leaves no duplicates. -/
theorem nodup_dedupFirstAux {α : Type} [DecidableEq α] (l : List α) :
    ∀ seen : List α, (dedupFirstAux seen l).Nodup := by
  induction l with
  | nil => intro seen; simp [dedupFirstAux]
  | cons a l ih =>
    intro seen
    by_cases ha : a ∈ seen
    · rw [dedupFirstAux, if_pos ha]
      exact ih seen
    · rw [dedupFirstAux, if_neg ha]
      refine List.nodup_cons.mpr ⟨fun hmem => ?_, ih (a :: seen)⟩
      rw [mem_dedupFirstAux] at hmem
      exact hmem.2 (List.mem_cons_self a seen)

/-- Duplicate removal leaves no duplicates. -/
theorem nodup_dedupFirst {α : Type} [DecidableEq α] (l : List α) :
    (dedupFirst l).Nodup :=
  nodup_dedupFirstAux l []

/-- The worker fixes a duplicate-free list none of whose elements was
seen. -/
theorem dedupFirstAux_eq_self {α : Type} [DecidableEq α] (l : List α) :
    ∀ seen : List α, l.Nodup → (∀ x ∈ l, x ∉ seen) →
      dedupFirstAux seen l = l := by
  induction l with
  | nil => intro seen _ _; rfl
  | cons a l ih =>
    intro seen h hs
    rw [List.nodup_cons] at h
    rw [dedupFirstAux, if_neg (hs a (List.mem_cons_self a l))]
    congr 1
    apply ih (a :: seen) h.2
    intro x hx hmem
    rcases List.mem_cons.mp hmem with rfl | hxs
    · exact h.1 hx
    · exact hs x (List.mem_cons_of_mem a hx) hxs

/-- Duplicate removal fixes a duplicate-free list. -/
theorem dedupFirst_eq_self {α : Type} [DecidableEq α] (l : List α)
    (h : l.Nodup) : dedupFirst l = l :=
  dedupFirstAux_eq_self l [] h (fun x _ hx => by cases hx)

/-- Duplicate removal is idempotent. -/
theorem dedupFirst_idem {α : Type} [DecidableEq α] (l : List α) :
    dedupFirst (dedupFirst l) = dedupFirst l :=
  dedupFirst_eq_self _ (nodup_dedupFirst l)

/-- Re-running the column assignments on an already-enriched row
changes nothing: the derived columns are recomputed from the same date
and the name is already filled. -/
theorem enrich_enrich (r : Txn) : enrich (enrich r) = enrich r := rfl

/-- A map whose function fixes every element of the list is the
identity on that list. -/
theorem map_eq_self_of_fix {α : Type} (f : α → α) (l : List α)
    (h : ∀ x ∈ l, f x = x) : l.map f = l := by
  induction l with
  | nil => rfl
  | cons a t ih =>
    simp only [List.map_cons, h a (List.mem_cons_self a t)]
    rw [ih fun x hx => h x (List.mem_cons_of_mem a hx)]

/-- Conversely, a map that returns the list unchanged fixes each of its
elements. -/
theorem fix_of_map_eq_self {α : Type} (f : α → α) (l : List α)
    (h : l.map f = l) : ∀ x ∈ l, f x = x := by
  induction l with
  | nil => intro x hx; cases hx
  | cons a t ih =>
    simp only [List.map_cons, List.cons.injEq] at h
    intro x hx
    rcases List.mem_cons.mp hx with rfl | hxt
    · exact h.1
    · exact ih h.2 x hxt

/-- A sum of a list of nonnegative rationals is zero only if every
element is zero. -/
theorem sum_eq_zero_mem {l : List ℚ} (hnn : ∀ x ∈ l, 0 ≤ x)
    (hsum : l.sum = 0) : ∀ x ∈ l, x = 0 := by
  induction l with
  | nil => intro x hx; cases hx
  | cons a t ih =>
    have ha : 0 ≤ a := hnn a (List.mem_cons_self a t)
    have ht : 0 ≤ t.sum := List.sum_nonneg fun x hx => hnn x (List.mem_cons_of_mem a hx)
    rw [List.sum_cons] at hsum
    have ha0 : a = 0 := by linarith
    have ht0 : t.sum = 0 := by linarith
    intro x hx
    rcases List.mem_cons.mp hx with rfl | hxt
    · exact ha0
    · exact ih (fun y hy => hnn y (List.mem_cons_of_mem a hy)) ht0 x hxt

/-- The population variance is nonnegative. -/
theorem popVar_nonneg (l : List ℚ) : 0 ≤ popVar l := by
  unfold popVar
  apply div_nonneg
  · exact List.sum_nonneg fun x hx => by
      rcases List.mem_map.mp hx with ⟨y, _, rfl⟩
      positivity
  · positivity

/-- A zero population variance means every element equals the mean. -/
theorem popVar_eq_zero_all_mean {l : List ℚ} (h : popVar l = 0) :
    ∀ x ∈ l, x = meanQ l := by
  intro x hx
  have hlen : (l.length : ℚ) ≠ 0 := by
    have hne : l ≠ [] := List.ne_nil_of_mem hx
    exact Nat.cast_ne_zero.mpr (Nat.pos_iff_ne_zero.mp (List.length_pos.mpr hne))
  unfold popVar at h
  rw [div_eq_zero_iff] at h
  rcases h with h | h
  · have hZ := sum_eq_zero_mem
      (l := l.map fun y => (y - meanQ l) ^ 2)
      (fun z hz => by
        rcases List.mem_map.mp hz with ⟨y, _, rfl⟩
        positivity) h
    have hx2 : (x - meanQ l) ^ 2 = 0 :=
      hZ _ (List.mem_map.mpr ⟨x, hx, rfl⟩)
    have := pow_eq_zero_iff (n := 2) (by norm_num) |>.mp hx2
    linarith
  · exact absurd h hlen

/-- A list shorter than two elements has zero population variance. -/
theorem popVar_short (l : List ℚ) (h : l.length < 2) : popVar l = 0 := by
  match l, h with
  | [], _ => simp [popVar]
  | [x], _ => simp [popVar, meanQ]

/-- With zero population variance of the amounts, the z-score filter
flags nothing: every z-score is the NaN of a 0/0 division, and a NaN
float comparison is false. -/
theorem zscore_degenerate (data : List Txn)
    (h : popVar (amountsQ data) = 0) : detect_zscore_anomalies data = [] := by
  unfold detect_zscore_anomalies
  rw [List.filter_eq_nil_iff]
  intro r hr
  have hx : (r.amount : ℚ) = meanQ (amountsQ data) :=
    popVar_eq_zero_all_mean h _ (List.mem_map.mpr ⟨r, hr, rfl⟩)
  simp [fgtQ, fdiv, h, hx]

/-- On a one-element series every linear-interpolation quantile is that
element. -/
theorem quantile_single (x p : ℚ) : quantileQ [x] p = some x := by
  unfold quantileQ
  simp [sortQ, insertSorted]

/-- A single-record set has no IQR anomalies: both quantiles equal the
amount, the IQR is zero, and the record sits on both fences. -/
theorem iqr_singleton (r : Txn) : detect_iqr_anomalies [r] = [] := by
  unfold detect_iqr_anomalies
  rw [show amountsQ [r] = [(r.amount : ℚ)] from rfl]
  rw [quantile_single, quantile_single]
  simp only [List.filter]
  have h1 : ¬ ((r.amount : ℚ) < (r.amount : ℚ) - 3/2 * ((r.amount : ℚ) - (r.amount : ℚ))) := by
    intro hlt
    simp only [sub_self, mul_zero, sub_zero] at hlt
    exact lt_irrefl _ hlt
  have h2 : ¬ ((r.amount : ℚ) + 3/2 * ((r.amount : ℚ) - (r.amount : ℚ)) < (r.amount : ℚ)) := by
    intro hlt
    simp only [sub_self, mul_zero, add_zero] at hlt
    exact lt_irrefl _ hlt
  simp [h1, h2]

/-- A series with fewer than two monthly flows has NaN volatility. -/
theorem vol_short (flows : List ℚ) (h : flows.length < 2) :
    cashFlowVolatilityOf flows = Vol.nan := by
  unfold cashFlowVolatilityOf
  rw [if_pos h]

/-- C1: for every preprocessed record set with nonzero total Credit sum,
`calculate_advanced_metrics` returns `total_income` = sum of Credit
amounts, `total_expenses` = sum of Debit amounts, and `savings_rate` =
(total_income - total_expenses) / total_income * 100; at the
specification's three-record example this yields 100, 5090 and -4990
(see the witness). -/
theorem savings_rate_formula (data : List Txn)
    (h : total_income_of data ≠ 0) :
    (calculate_advanced_metrics data).total_income = total_income_of data ∧
    (calculate_advanced_metrics data).total_expenses = total_expenses_of data ∧
    (calculate_advanced_metrics data).savings_rate =
      FloatVal.num (((total_income_of data : ℚ) - (total_expenses_of data : ℚ)) /
        (total_income_of data : ℚ) * 100) := by
  refine ⟨rfl, rfl, ?_⟩
  have h2 : (calculate_advanced_metrics data).savings_rate =
      fmulPos (fdivInt (total_income_of data - total_expenses_of data)
        (total_income_of data)) 100 := rfl
  rw [h2]
  unfold fdivInt
  rw [if_neg h]
  unfold fmulPos
  push_cast
  rfl

/-- Witness for C1: the three-record example (Credit 100, Debits 5000
and 90) has income 100, expenses 5090 and savings rate -4990. -/
theorem savings_rate_formula_witness :
    (calculate_advanced_metrics (preprocess_data exampleRaw)).total_income = 100 ∧
    (calculate_advanced_metrics (preprocess_data exampleRaw)).total_expenses = 5090 ∧
    (calculate_advanced_metrics (preprocess_data exampleRaw)).savings_rate =
      FloatVal.num (-4990) := by
  have h := savings_rate_formula (preprocess_data exampleRaw) (by decide)
  refine ⟨h.1.trans (by decide), h.2.1.trans (by decide), h.2.2.trans ?_⟩
  rw [show total_income_of (preprocess_data exampleRaw) = 100 from by decide,
    show total_expenses_of (preprocess_data exampleRaw) = 5090 from by decide]
  norm_num

/-- C2: with fewer than two records or zero population variance of the
amounts, the z-score detector flags nothing (the degenerate 0/0
z-scores are NaN and no comparison fires); otherwise it flags exactly
the records whose squared deviation exceeds 9 times the population
variance, i.e. whose absolute population z-score exceeds 3. -/
theorem zscore_guard_and_exact (data : List Txn) :
    ((data.length < 2 ∨ popVar (amountsQ data) = 0) →
      detect_zscore_anomalies data = []) ∧
    (popVar (amountsQ data) ≠ 0 →
      detect_zscore_anomalies data =
        data.filter fun r =>
          decide (9 * popVar (amountsQ data) <
            ((r.amount : ℚ) - meanQ (amountsQ data)) ^ 2)) := by
  constructor
  · intro h
    apply zscore_degenerate
    rcases h with h | h
    · exact popVar_short _ (by simpa [amountsQ] using h)
    · exact h
  · intro hvar
    unfold detect_zscore_anomalies
    apply List.filter_congr
    intro r hr
    have hpos : 0 < popVar (amountsQ data) :=
      lt_of_le_of_ne (popVar_nonneg _) (Ne.symm hvar)
    simp only [fdiv, if_neg hvar, fgtQ]
    rw [decide_eq_decide]
    exact lt_div_iff₀ hpos

/-- Witness for C2: the single-record set has no z-score anomalies, and
on the three-record example (nonzero variance) the detector agrees with
the exact |z| > 3 filter. -/
theorem zscore_guard_and_exact_witness :
    detect_zscore_anomalies (preprocess_data noIncomeRaw) = [] ∧
    detect_zscore_anomalies (preprocess_data exampleRaw) =
      (preprocess_data exampleRaw).filter (fun r =>
        decide (9 * popVar (amountsQ (preprocess_data exampleRaw)) <
          ((r.amount : ℚ) - meanQ (amountsQ (preprocess_data exampleRaw))) ^ 2)) := by
  constructor
  · exact (zscore_guard_and_exact (preprocess_data noIncomeRaw)).1 (Or.inl (by decide))
  · apply (zscore_guard_and_exact (preprocess_data exampleRaw)).2
    have hl : amountsQ (preprocess_data exampleRaw) =
        [((100 : ℤ) : ℚ), ((5000 : ℤ) : ℚ), ((90 : ℤ) : ℚ)] := by
      rw [show preprocess_data exampleRaw =
        [enrich (Txn.mk ⟨2024, 1, 3, 14, 0⟩ (some "A") 100 "Cr" none none none),
         enrich (Txn.mk ⟨2024, 1, 10, 23, 30⟩ (some "B") 5000 "Db" none none none),
         enrich (Txn.mk ⟨2024, 1, 15, 10, 0⟩ (some "C") 90 "Db" none none none)] from by decide]
      rfl
    rw [hl]
    unfold popVar meanQ
    simp only [List.map_cons, List.map_nil, List.sum_cons, List.sum_nil,
      List.length_cons, List.length_nil]
    push_cast
    norm_num

/-- C3 (code behaviour at the failing input): with no Credit rows the
savings-rate division by the zero total income produces the float fault
-inf, which is handed to the recommendation rules with no guard and
even fires the critical-overspending message — the pipeline has no
defined not-applicable branch. -/
theorem zero_income_fault_reaches_rules :
    (render_pipeline noIncomeRaw).1.savings_rate = FloatVal.negInf ∧
    (render_pipeline noIncomeRaw).2.2 = [criticalMsg] := by
  have hz : detect_zscore_anomalies (preprocess_data noIncomeRaw) = [] :=
    zscore_degenerate _ (popVar_short _ (by decide))
  have hiqr : detect_iqr_anomalies (preprocess_data noIncomeRaw) = [] := by
    rw [show preprocess_data noIncomeRaw =
      [enrich (Txn.mk ⟨2024, 1, 15, 10, 0⟩ (some "X") 5090 "Db" none none none)] from by decide]
    exact iqr_singleton _
  have ht : detect_time_based_anomalies (preprocess_data noIncomeRaw) =
      TimeAnoms.mk [] [] := by decide
  have hanom : detect_anomalies_advanced (preprocess_data noIncomeRaw) =
      Anomalies.mk [] [] (TimeAnoms.mk [] []) := by
    unfold detect_anomalies_advanced
    rw [hz, hiqr, ht]
  have hsr : (calculate_advanced_metrics (preprocess_data noIncomeRaw)).savings_rate =
      FloatVal.negInf := by decide
  have hveq : (calculate_advanced_metrics (preprocess_data noIncomeRaw)).cash_flow_volatility =
      cashFlowVolatilityOf ((groupSumsBy (fun r => monthKey r.date)
        (preprocess_data noIncomeRaw)).map fun z => (z : ℚ)) := rfl
  have hvol : (calculate_advanced_metrics (preprocess_data noIncomeRaw)).cash_flow_volatility =
      Vol.nan := by
    rw [hveq]
    exact vol_short _ (by decide)
  refine ⟨hsr, ?_⟩
  show generate_advanced_recommendations
      (calculate_advanced_metrics (preprocess_data noIncomeRaw))
      (detect_anomalies_advanced (preprocess_data noIncomeRaw)) = [criticalMsg]
  rw [hanom]
  unfold generate_advanced_recommendations
  rw [hsr, hvol]
  simp [fltQ, volGt50]

/-- C4 counterexample: January 2023 and January 2024 do not fall into
the same monthly group — the `to_period('M')` key carries the year, so
the two-record set yields two one-record buckets [100, 200] rather
than one bucket [300]. -/
theorem month_groups_split_years_cex :
    monthKey (DT.mk 2023 1 5 12 0) ≠ monthKey (DT.mk 2024 1 5 12 0) ∧
    groupSumsBy (fun r => monthKey r.date) (preprocess_data janTwoYears) =
      [100, 200] := by
  constructor <;> decide

/-- C4 amended: all monthly groupings bucket by year-month period: two
dates share a monthly group key exactly when they agree on both year
and calendar month (so same-named months of different years fall into
different groups), and the derived `month` column is that same key. -/
theorem month_grouping_by_year_and_month :
    (∀ d1 d2 : DT, monthKey d1 = monthKey d2 ↔
      d1.year = d2.year ∧ d1.month = d2.month) ∧
    (∀ r : Txn, (enrich r).month = some (monthKey r.date)) := by
  constructor
  · intro d1 d2
    simp [monthKey]
  · intro r
    rfl

/-- C5: preprocessing is idempotent — applying it to its own output
removes no further rows and changes no field, because the column
assignments fix already-enriched rows and duplicate removal fixes
duplicate-free lists. -/
theorem preprocess_idempotent (raw : List Txn) :
    preprocess_data (preprocess_data raw) = preprocess_data raw := by
  unfold preprocess_data
  have hmap : (dedupFirst (raw.map enrich)).map enrich =
      dedupFirst (raw.map enrich) := by
    apply map_eq_self_of_fix
    intro x hx
    rw [mem_dedupFirst] at hx
    rcases List.mem_map.mp hx with ⟨y, _, rfl⟩
    exact enrich_enrich y
  rw [hmap, dedupFirst_idem]

/-- C6 counterexample: after preprocessing a raw record whose derived
columns are unset, the caller's input object no longer equals what was
passed in — the column assignments mutated it. -/
theorem preprocess_mutates_input_cex :
    (preprocessEffect [rawRec]).1 ≠ [rawRec] := by
  decide

/-- C6 amended: the preprocessor mutates the caller's input in place —
after the call the input holds the enriched rows (parsed date, filled
name, derived month/day_of_week/quarter columns), and it is unchanged
exactly when every row was already enriched; only the duplicate
removal produces a fresh record set. -/
theorem preprocess_effect_on_input (raw : List Txn) :
    (preprocessEffect raw).1 = raw.map enrich ∧
    ((preprocessEffect raw).1 = raw ↔ ∀ r ∈ raw, enrich r = r) := by
  refine ⟨rfl, ?_⟩
  constructor
  · intro h
    exact fix_of_map_eq_self enrich raw h
  · intro h
    exact map_eq_self_of_fix enrich raw h

/-- C7 counterexample: a record whose direction is 'Tr' lands in
neither the Credits nor the Debits subset, so the two subsets do not
cover the record set and the claimed invariant fails. -/
theorem direction_partition_cex :
    ¬ ((∀ r ∈ [transferRec], r.DrCr = "Cr" ∨ r.DrCr = "Db") ∧
      creditsOf [transferRec] ++ debitsOf [transferRec] = [transferRec]) := by
  decide

/-- C7 amended: the Credits and Debits subsets are always disjoint (a
direction cannot equal both 'Cr' and 'Db'), and they partition the
record set whenever every record's direction is one of the two — a
condition the analyzer never enforces. -/
theorem direction_partition (data : List Txn) :
    (∀ r, ¬ (r ∈ creditsOf data ∧ r ∈ debitsOf data)) ∧
    ((∀ r ∈ data, r.DrCr = "Cr" ∨ r.DrCr = "Db") →
      (creditsOf data ++ debitsOf data).Perm data) := by
  constructor
  · rintro r ⟨hc, hd⟩
    simp only [creditsOf, debitsOf, List.mem_filter, decide_eq_true_eq] at hc hd
    rw [hc.2] at hd
    exact absurd hd.2 (by decide)
  · intro h
    have hdb : debitsOf data = data.filter fun r => !(decide (r.DrCr = "Cr")) := by
      unfold debitsOf
      apply List.filter_congr
      intro r hr
      rcases h r hr with hcr | hdbr
      · rw [hcr]
        decide
      · rw [hdbr]
        decide
    rw [hdb]
    unfold creditsOf
    exact List.filter_append_perm _ data

/-- Witness for C7: on the three-record example, whose directions are
all 'Cr' or 'Db', Credits followed by Debits is a permutation of the
full record set. -/
theorem direction_partition_witness :
    (creditsOf (preprocess_data exampleRaw) ++
      debitsOf (preprocess_data exampleRaw)).Perm (preprocess_data exampleRaw) :=
  (direction_partition (preprocess_data exampleRaw)).2 (by decide)

/-- C8: the recommendation generator never reads the IQR anomaly set —
two anomaly bundles that differ only in their IQR component produce
identical recommendation lists, so no advisory string is ever produced
for IQR anomalies. -/
theorem recommendations_ignore_iqr (m : Metrics) (z i1 i2 : List Txn)
    (t : TimeAnoms) :
    generate_advanced_recommendations m (Anomalies.mk z i1 t) =
      generate_advanced_recommendations m (Anomalies.mk z i2 t) := rfl

/-- C9: the recommendation list is the concatenation of five segments
in fixed order — savings (critical or low, never both), volatility,
z-score count, late-night count, weekend count — hence at most five
advisory strings. -/
theorem recommendations_shape (m : Metrics) (a : Anomalies) :
    generate_advanced_recommendations m a =
      savings_segment m ++ volatility_segment m ++ zscore_segment a ++
        late_segment a ++ weekend_segment a ∧
    (savings_segment m = [] ∨ savings_segment m = [criticalMsg] ∨
      savings_segment m = [lowSavingsMsg]) ∧
    (volatility_segment m).length ≤ 1 ∧
    (zscore_segment a).length ≤ 1 ∧
    (late_segment a).length ≤ 1 ∧
    (weekend_segment a).length ≤ 1 ∧
    (generate_advanced_recommendations m a).length ≤ 5 := by
  have hdecomp : generate_advanced_recommendations m a =
      savings_segment m ++ volatility_segment m ++ zscore_segment a ++
        late_segment a ++ weekend_segment a := by
    unfold generate_advanced_recommendations savings_segment volatility_segment
      zscore_segment late_segment weekend_segment
    dsimp only
    split_ifs <;> simp
  have h1 : savings_segment m = [] ∨ savings_segment m = [criticalMsg] ∨
      savings_segment m = [lowSavingsMsg] := by
    unfold savings_segment
    split_ifs
    · right; left; rfl
    · right; right; rfl
    · left; rfl
  have h2 : (volatility_segment m).length ≤ 1 := by
    unfold volatility_segment
    split_ifs <;> simp
  have h3 : (zscore_segment a).length ≤ 1 := by
    unfold zscore_segment
    split_ifs <;> simp
  have h4 : (late_segment a).length ≤ 1 := by
    unfold late_segment
    split_ifs <;> simp
  have h5 : (weekend_segment a).length ≤ 1 := by
    unfold weekend_segment
    split_ifs <;> simp
  refine ⟨hdecomp, h1, h2, h3, h4, h5, ?_⟩
  have hs : (savings_segment m).length ≤ 1 := by
    rcases h1 with h | h | h <;> rw [h] <;> simp
  rw [hdecomp]
  simp only [List.length_append]
  omega

/-- C10: a record whose direction is neither 'Cr' nor 'Db' contributes
to neither total_income nor total_expenses nor the monthly averages
(the Credits and Debits subsets ignore it), yet it is included in the
cash-flow monthly sums (its month bucket gains its amount) and in the
input series of all three anomaly detectors. -/
theorem unknown_direction_contribution (r : Txn) (data : List Txn)
    (hc : r.DrCr ≠ "Cr") (hd : r.DrCr ≠ "Db") :
    creditsOf (r :: data) = creditsOf data ∧
    debitsOf (r :: data) = debitsOf data ∧
    (calculate_advanced_metrics (r :: data)).total_income =
      (calculate_advanced_metrics data).total_income ∧
    (calculate_advanced_metrics (r :: data)).total_expenses =
      (calculate_advanced_metrics data).total_expenses ∧
    (calculate_advanced_metrics (r :: data)).avg_monthly_income =
      (calculate_advanced_metrics data).avg_monthly_income ∧
    (calculate_advanced_metrics (r :: data)).avg_monthly_expenses =
      (calculate_advanced_metrics data).avg_monthly_expenses ∧
    amountsQ (r :: data) = (r.amount : ℚ) :: amountsQ data ∧
    (((r :: data).filter fun x => decide (monthKey x.date = monthKey r.date)).map
        fun x => x.amount).sum =
      r.amount + ((data.filter fun x => decide (monthKey x.date = monthKey r.date)).map
        fun x => x.amount).sum ∧
    ((r ∈ (detect_time_based_anomalies (r :: data)).late_night_transactions) ↔
      (r.date.hour < 6 ∨ 22 < r.date.hour)) ∧
    ((r ∈ (detect_time_based_anomalies (r :: data)).weekend_transactions) ↔
      (dayName r.date = "Saturday" ∨ dayName r.date = "Sunday")) := by
  have hcred : creditsOf (r :: data) = creditsOf data := by
    unfold creditsOf
    rw [List.filter_cons_of_neg]
    simp [hc]
  have hdeb : debitsOf (r :: data) = debitsOf data := by
    unfold debitsOf
    rw [List.filter_cons_of_neg]
    simp [hd]
  refine ⟨hcred, hdeb, ?_, ?_, ?_, ?_, rfl, ?_, ?_, ?_⟩
  · show total_income_of (r :: data) = total_income_of data
    unfold total_income_of
    rw [hcred]
  · show total_expenses_of (r :: data) = total_expenses_of data
    unfold total_expenses_of
    rw [hdeb]
  · show meanF ((groupSumsBy (fun x => x.month) (creditsOf (r :: data))).map fun z => (z : ℚ)) =
      meanF ((groupSumsBy (fun x => x.month) (creditsOf data)).map fun z => (z : ℚ))
    rw [hcred]
  · show meanF ((groupSumsBy (fun x => x.month) (debitsOf (r :: data))).map fun z => (z : ℚ)) =
      meanF ((groupSumsBy (fun x => x.month) (debitsOf data)).map fun z => (z : ℚ))
    rw [hdeb]
  · rw [List.filter_cons_of_pos (by simp)]
    rw [List.map_cons, List.sum_cons]
  · unfold detect_time_based_anomalies
    simp [List.mem_filter]
  · unfold detect_time_based_anomalies
    simp [List.mem_filter]

/-- Witness for C10: prepending the 'Tr'-direction record to the
three-record example leaves the Credits and Debits subsets untouched,
while the statistical detectors' amount series gains its amount. -/
theorem unknown_direction_contribution_witness :
    creditsOf (transferRec :: preprocess_data exampleRaw) =
      creditsOf (preprocess_data exampleRaw) ∧
    debitsOf (transferRec :: preprocess_data exampleRaw) =
      debitsOf (preprocess_data exampleRaw) ∧
    amountsQ (transferRec :: preprocess_data exampleRaw) =
      (transferRec.amount : ℚ) :: amountsQ (preprocess_data exampleRaw) := by
  have h := unknown_direction_contribution transferRec (preprocess_data exampleRaw)
    (by decide) (by decide)
  exact ⟨h.1, h.2.1, h.2.2.2.2.2.2.1⟩
